import Mathlib

/-!
Shallow embedding of the data pipelines of `src/dashboard.py` (a Streamlit
dashboard over three NASA CSV datasets: meteorite landings, bolide reports,
near-Earth objects).

Modelling conventions:
* a dataframe is a `List` of records, one structure per domain;
* numeric columns are `ℚ`, year columns `ℤ` (or `ℕ` for NEO regex years);
* a nullable cell (`NaN`/`NaT`) is an `Option`; pandas comparisons with a
  missing value are `False`, modelled by the `none` branches below;
* the pandas datetime parser is external library code, so bolide pipelines
  take it as an explicit argument `parse : String → Option PDTimestamp`;
* `pd.Timestamp` is bounded (1677-09-21 .. 2262-04-11), so a bare-year
  date built with `format='%Y'` and `errors='coerce'` exists exactly for
  years 1678 .. 2262 and is `NaT` (`none`) otherwise.
-/

namespace Nasa

/-! ## Meteorites tab (dashboard.py lines 38-220) -/

/-- A raw row of `data/meteorite_landings.csv`.  Presentation-only columns
(`nametype`, `GeoLocation`) are omitted.  The raw `year` cell is
`Option (Option ℤ)`: the outer `none` is a missing cell (removed by the
`dropna` on line 40), the inner `none` a present but non-numeric value
(coerced to `NaN` by `pd.to_numeric(errors='coerce')` on line 41 and removed
by the `notna` filter on line 42). -/
structure MeteoriteRaw where
  name : String
  id : ℕ
  recclass : String
  mass : Option ℚ
  fall : String
  year : Option (Option ℤ)
  reclat : Option ℚ
  reclong : Option ℚ
  deriving DecidableEq

/-- `pd.to_datetime(year, format='%Y', errors='coerce')` (line 44): the
year survives as a `pd.Timestamp` exactly when the resulting January-1 date
fits in the bounded `pd.Timestamp` range, otherwise it is coerced to `NaT`.
Only the year component of the resulting timestamp is ever used. -/
def toDatetimeY (y : ℤ) : Option ℤ :=
  if 1678 ≤ y ∧ y ≤ 2262 then some y else none

/-- A cleaned meteorite row (after lines 39-45). -/
structure Meteorite where
  name : String
  id : ℕ
  recclass : String
  mass : ℚ
  fall : String
  year : ℤ
  dateTime : Option ℤ
  reclat : ℚ
  reclong : ℚ
  deriving DecidableEq

/-- Row-wise semantics of the cleaning chain, lines 39-45:
`dropna(['year','mass (g)','reclat','reclong'])` (line 40),
`to_numeric(year, errors='coerce')` + `notna` (lines 41-42),
`year <= 2020` (line 43), `Date/Time` derivation (line 44),
`mass (g) > 0` (line 45). -/
def cleanMeteorite (w : MeteoriteRaw) : Option Meteorite :=
  match w.year, w.mass, w.reclat, w.reclong with
  | some (some y), some m, some la, some lo =>
    if y ≤ 2020 ∧ 0 < m then
      some { name := w.name, id := w.id, recclass := w.recclass, mass := m,
             fall := w.fall, year := y, dateTime := toDatetimeY y,
             reclat := la, reclong := lo }
    else none
  | _, _, _, _ => none

/-- The cleaned meteorite table `df_meteorites` (lines 39-45). -/
def df_meteorites (raws : List MeteoriteRaw) : List Meteorite :=
  raws.filterMap cleanMeteorite

/-- `df_meteorites_filtered` (lines 113-117): `Date/Time.dt.year.between`
(inclusive on both bounds; a `NaT` date yields `NaN.between = False`),
conjoined with `fall.isin(fall_type)` and `recclass.isin(classes)`.
The trailing `.copy()` produces a fresh frame and is the identity on the
row contents. -/
def df_meteorites_filtered (df : List Meteorite) (lo hi : ℤ)
    (fallSel classSel : List String) : List Meteorite :=
  df.filter fun r =>
    (match r.dateTime with
     | some y => decide (lo ≤ y) && decide (y ≤ hi)
     | none => false)
    && decide (r.fall ∈ fallSel) && decide (r.recclass ∈ classSel)

/-- Descending-count order used by `value_counts()` / `nlargest`. -/
def cntGE (a b : String × ℕ) : Prop := b.2 ≤ a.2

instance : DecidableRel cntGE := fun a b => Nat.decLe b.2 a.2

instance : IsTotal (String × ℕ) cntGE :=
  ⟨fun a b => Nat.le_total b.2 a.2⟩

instance : IsTrans (String × ℕ) cntGE :=
  ⟨fun _ _ _ h1 h2 => Nat.le_trans h2 h1⟩

/-- `Series.value_counts()`: one `(category, frequency)` pair per distinct
value, ordered by frequency descending (ties in library order). -/
def value_counts (l : List String) : List (String × ℕ) :=
  (l.dedup.map fun c => (c, l.count c)).insertionSort cntGE

/-- `df_meteorites_filtered['recclass'].value_counts().nlargest(10)`
(line 147): the ten largest frequencies of the descending-ordered counts. -/
def class_pie (df : List Meteorite) : List (String × ℕ) :=
  (value_counts (df.map Meteorite.recclass)).take 10

/-- `value_counts().nlargest(10).index` (line 157). -/
def top_classes (df : List Meteorite) : List String :=
  (class_pie df).map Prod.fst

/-! ## Near-Earth objects tab (dashboard.py lines 396-566) -/

/-- A raw row of `data/nearest_earth_objects.csv`. -/
structure NeoRaw where
  name : String
  est_diameter_min : ℚ
  est_diameter_max : ℚ
  relative_velocity : ℚ
  miss_distance : ℚ
  absolute_magnitude : ℚ
  hazardous : Bool
  deriving DecidableEq

/-- One attempted match of the regex `\((19|20)\d{2}` at the head of the
character list: an opening parenthesis, then `19` or `20`, then two digits.
On success the value is the matched 4-digit number (`match.group(0)[1:]`
converted by `int`). -/
def tokenAt : List Char → Option ℕ
  | '(' :: c1 :: c2 :: c3 :: c4 :: _ =>
    if ((c1 = '1' ∧ c2 = '9') ∨ (c1 = '2' ∧ c2 = '0')) ∧ c3.isDigit ∧ c4.isDigit then
      some (1000 * (c1.toNat - 48) + 100 * (c2.toNat - 48) +
            10 * (c3.toNat - 48) + (c4.toNat - 48))
    else none
  | _ => none

/-- `re.search` semantics: try the pattern at each position left to right
and return the first (leftmost) match. -/
def searchYear : List Char → Option ℕ
  | [] => none
  | c :: rest =>
    match tokenAt (c :: rest) with
    | some y => some y
    | none => searchYear rest

/-- `extract_year` (lines 400-402):
`match = re.search(r"\((19|20)\d{2}", name)`;
`return int(match.group(0)[1:]) if match else None`. -/
def extract_year (name : String) : Option ℕ :=
  searchYear name.data

/-- A derived NEO row (after lines 397-406). -/
structure Neo where
  name : String
  est_diameter_min : ℚ
  est_diameter_max : ℚ
  mean_diameter : ℚ
  relative_velocity : ℚ
  miss_distance : ℚ
  absolute_magnitude : ℚ
  hazardous : Bool
  year : ℕ
  deriving DecidableEq

/-- Row derivation for the NEO table: `mean_diameter` (line 398) and the
extracted `year` (lines 404-406). -/
def deriveNeo (w : NeoRaw) (y : ℕ) : Neo :=
  { name := w.name, est_diameter_min := w.est_diameter_min,
    est_diameter_max := w.est_diameter_max,
    mean_diameter := (w.est_diameter_min + w.est_diameter_max) / 2,
    relative_velocity := w.relative_velocity,
    miss_distance := w.miss_distance,
    absolute_magnitude := w.absolute_magnitude,
    hazardous := w.hazardous, year := y }

/-- The derived-and-cleaned NEO table `df_neo` (lines 397-406):
`mean_diameter` column, `year` column from `extract_year`,
`dropna(subset=['year'])`, `astype(int)`. -/
def df_neo (raws : List NeoRaw) : List Neo :=
  raws.filterMap fun w => (extract_year w.name).map (deriveNeo w)

/-- `df_neo_filtered` (lines 455-457): inclusive year range conjoined with
`hazardous.isin(hazardous_type)`. -/
def df_neo_filtered (df : List Neo) (lo hi : ℕ) (hazSel : List Bool) : List Neo :=
  df.filter fun x =>
    decide (lo ≤ x.year) && decide (x.year ≤ hi) && decide (x.hazardous ∈ hazSel)

/-! ## Bolides tab (dashboard.py lines 223-393) -/

/-- The components of a parsed `pd.Timestamp` the dashboard reads:
`dt.year`, `dt.month`, `dt.day_name()`. -/
structure PDTimestamp where
  year : ℤ
  month : ℕ
  dayName : String
  deriving DecidableEq

/-- A raw row of `data/fireball_and_bolide_reports.csv` with its free-text
`Date/Time` cell. -/
structure BolideRaw where
  dateTime : String
  lat : Option ℚ
  long : Option ℚ
  impactEnergy : Option ℚ
  radiatedEnergy : Option ℚ
  velocity : Option ℚ
  deriving DecidableEq

/-- A bolide row after the derivations of lines 225-226.  The `month` and
`dayOfWeek` columns do not exist yet: they are only assigned on the
filtered view (lines 290-291), so they start as `none`. -/
structure Bolide where
  dateTime : Option PDTimestamp
  year : Option ℤ
  lat : Option ℚ
  long : Option ℚ
  impactEnergy : Option ℚ
  radiatedEnergy : Option ℚ
  velocity : Option ℚ
  month : Option ℕ
  dayOfWeek : Option String
  deriving DecidableEq

/-- `df_bolides` (lines 224-226): `pd.to_datetime(..., errors='coerce',
utc=True)` maps every cell through the external parser, coercing failures
to `NaT` (`none`) instead of raising; `Year` is the year component (a
missing `NaN` when the timestamp is `NaT`). -/
def df_bolides (parse : String → Option PDTimestamp) (raws : List BolideRaw) :
    List Bolide :=
  raws.map fun w =>
    let d := parse w.dateTime
    { dateTime := d, year := d.map PDTimestamp.year, lat := w.lat,
      long := w.long, impactEnergy := w.impactEnergy,
      radiatedEnergy := w.radiatedEnergy, velocity := w.velocity,
      month := none, dayOfWeek := none }

/-- `df_bolides_clean` (line 274): `dropna` on latitude and longitude. -/
def df_bolides_clean (df : List Bolide) : List Bolide :=
  df.filter fun b => b.lat.isSome && b.long.isSome

/-- `df_bolides_filtered` (line 276): `(Year >= lo) & (Year <= hi)`.
A row whose timestamp failed to parse has `Year = NaN`, and both pandas
comparisons with `NaN` are `False`, hence the `none` branch. -/
def df_bolides_filtered (df : List Bolide) (lo hi : ℤ) : List Bolide :=
  df.filter fun b =>
    match b.year with
    | some y => decide (lo ≤ y) && decide (y ≤ hi)
    | none => false

/-- Lines 290-291: `Month` and `DayOfWeek` column assignments on the
filtered view (line 279 re-parses the already-parsed `Date/Time` column
with `errors='coerce'`, which is the identity on it). -/
def assignMonthDay (df : List Bolide) : List Bolide :=
  df.map fun b =>
    { b with month := b.dateTime.map PDTimestamp.month,
             dayOfWeek := b.dateTime.map PDTimestamp.dayName }

/-- `df_bolides_filtered_map` (line 328): inclusive impact-energy range;
a missing energy compares `False` on both sides. -/
def df_bolides_filtered_map (df : List Bolide) (elo ehi : ℚ) : List Bolide :=
  df.filter fun b =>
    match b.impactEnergy with
    | some e => decide (elo ≤ e) && decide (e ≤ ehi)
    | none => false

/-- `df_multi` (lines 344-345): `dropna` on `Date/Time` plus each selected
metric column, then the inclusive year-range filter on `dt.year`.
`selI`, `selR`, `selV` record whether `Impact energy (kt)`,
`Radiated Energy (e10 J)`, `Velocity (km/s)` are in `selected_metrics`. -/
def df_multi (df : List Bolide) (selI selR selV : Bool) (lo hi : ℤ) :
    List Bolide :=
  (df.filter fun b =>
      b.dateTime.isSome
      && (!selI || b.impactEnergy.isSome)
      && (!selR || b.radiatedEnergy.isSome)
      && (!selV || b.velocity.isSome)).filter fun b =>
    match b.dateTime with
    | some d => decide (lo ≤ d.year) && decide (d.year ≤ hi)
    | none => false

/-- Radiated-energy sort key for `sort_values("Radiated Energy (e10 J)",
ascending=False)`; applied after the `dropna` on that column, where the
`getD` default is never reached. -/
def radVal (b : Bolide) : ℚ := b.radiatedEnergy.getD 0

/-- Descending radiated-energy order. -/
def radGE (a b : Bolide) : Prop := radVal b ≤ radVal a

instance : DecidableRel radGE := fun a b =>
  inferInstanceAs (Decidable (radVal b ≤ radVal a))

/-- `top_radiated` (line 360): note the input is the raw `df_bolides`
table, not `df_bolides_filtered` — `dropna` on the radiated-energy column,
sort by it descending, `head(10)`. -/
def top_radiated (df : List Bolide) : List Bolide :=
  (((df.filter fun b => b.radiatedEnergy.isSome).insertionSort radGE)).take 10

/-! ## Filter passes as state transformations (for the frame claim) -/

/-- The two frames of the meteorite tab that exist around the filter pass
(lines 113-117). -/
structure MeteoritesTabState where
  df_meteorites : List Meteorite
  df_meteorites_filtered : List Meteorite
  deriving DecidableEq

/-- The meteorite filter pass: pandas boolean-mask selection followed by
`.copy()` builds a brand-new frame; the cleaned table is carried through
untouched. -/
def meteoritesFilterPass (df : List Meteorite) (lo hi : ℤ)
    (fallSel classSel : List String) : MeteoritesTabState :=
  { df_meteorites := df,
    df_meteorites_filtered := df_meteorites_filtered df lo hi fallSel classSel }

/-- The two frames of the bolide tab that exist around the filter pass
(lines 274-291). -/
structure BolidesTabState where
  df_bolides_clean : List Bolide
  df_bolides_filtered : List Bolide
  deriving DecidableEq

/-- The bolide filter pass (lines 276-291): boolean-mask selection builds a
new frame; the subsequent `Date/Time` re-parse (identity, line 279) and the
`Month`/`DayOfWeek` column assignments (lines 290-291) write to that copy,
never to `df_bolides_clean`. -/
def bolidesFilterPass (clean : List Bolide) (lo hi : ℤ) : BolidesTabState :=
  { df_bolides_clean := clean,
    df_bolides_filtered := assignMonthDay (df_bolides_filtered clean lo hi) }

/-- Concrete raw meteorite row used to instantiate the general theorems. -/
def cMetRaw : MeteoriteRaw :=
  { name := "Aachen", id := 1, recclass := "L5", mass := some 21, fall := "Fell",
    year := some (some 2005), reclat := some 50, reclong := some 6 }

/-- The cleaned row produced from `cMetRaw`. -/
def cMet : Meteorite :=
  { name := "Aachen", id := 1, recclass := "L5", mass := 21, fall := "Fell",
    year := 2005, dateTime := some 2005, reclat := 50, reclong := 6 }

/-- Concrete raw NEO row used to instantiate the general theorems. -/
def cNeoRaw : NeoRaw :=
  { name := "163348 (2002 NN4)", est_diameter_min := 1, est_diameter_max := 3,
    relative_velocity := 10, miss_distance := 100, absolute_magnitude := 20,
    hazardous := true }

/-- The derived row produced from `cNeoRaw`. -/
def cNeo : Neo :=
  { name := "163348 (2002 NN4)", est_diameter_min := 1, est_diameter_max := 3,
    mean_diameter := 2, relative_velocity := 10, miss_distance := 100,
    absolute_magnitude := 20, hazardous := true, year := 2002 }

/-- A cleaned meteorite of class `c` (fixture builder). -/
def mkMetClass (c : String) : Meteorite :=
  { name := c, id := 0, recclass := c, mass := 1, fall := "Fell",
    year := 2000, dateTime := some 2000, reclat := 0, reclong := 0 }

/-- Eleven meteorites with eleven distinct classes. -/
def cMet11 : List Meteorite :=
  (["A", "B", "C", "D", "E", "F", "G", "H", "I", "J", "K"]).map mkMetClass

/-- Bolide fixtures carrying the impact energies of the spec scenario. -/
def b50 : Bolide :=
  { dateTime := none, year := none, lat := none, long := none,
    impactEnergy := some 50, radiatedEnergy := none, velocity := none,
    month := none, dayOfWeek := none }

def b100 : Bolide :=
  { dateTime := none, year := none, lat := none, long := none,
    impactEnergy := some 100, radiatedEnergy := none, velocity := none,
    month := none, dayOfWeek := none }

def b5000 : Bolide :=
  { dateTime := none, year := none, lat := none, long := none,
    impactEnergy := some 5000, radiatedEnergy := none, velocity := none,
    month := none, dayOfWeek := none }

def b200000 : Bolide :=
  { dateTime := none, year := none, lat := none, long := none,
    impactEnergy := some 200000, radiatedEnergy := none, velocity := none,
    month := none, dayOfWeek := none }

/-- Concrete stand-in for the external pandas timestamp parser: recognises
one fixed timestamp string. -/
def cParse : String → Option PDTimestamp := fun s =>
  if s = "1990-01-01 12:00:00" then
    some { year := 1990, month := 1, dayName := "Monday" }
  else none

/-- A raw bolide report dated 1990 with the largest radiated energy. -/
def cBolRaw : BolideRaw :=
  { dateTime := "1990-01-01 12:00:00", lat := some 10, long := some 20,
    impactEnergy := some 5, radiatedEnergy := some 100, velocity := some 15 }

/-- The derived bolide row produced from `cBolRaw` by lines 224-226. -/
def cBol : Bolide :=
  { dateTime := some { year := 1990, month := 1, dayName := "Monday" },
    year := some 1990, lat := some 10, long := some 20, impactEnergy := some 5,
    radiatedEnergy := some 100, velocity := some 15,
    month := none, dayOfWeek := none }

/-! ## Helper lemmas -/

/-! ## Helper lemmas -/

theorem searchYear_eq_none_iff (s : List Char) :
    searchYear s = none ↔ ∀ i, tokenAt (s.drop i) = none := by
  induction s with
  | nil =>
    constructor
    · intro _ i
      cases i <;> rfl
    · intro _
      rfl
  | cons c rest ih =>
    constructor
    · intro hnone i
      simp only [searchYear] at hnone
      cases h : tokenAt (c :: rest) with
      | some y => rw [h] at hnone; exact absurd hnone (by simp)
      | none =>
        rw [h] at hnone
        cases i with
        | zero => exact h
        | succ j => exact (ih.mp hnone) j
    · intro hall
      simp only [searchYear]
      have h0 : tokenAt (c :: rest) = none := hall 0
      rw [h0]
      exact ih.mpr (fun j => hall (j + 1))

theorem searchYear_eq_some {s : List Char} {y : ℕ} (h : searchYear s = some y) :
    ∃ i, tokenAt (s.drop i) = some y ∧ ∀ j, j < i → tokenAt (s.drop j) = none := by
  induction s with
  | nil => exact absurd h (by simp [searchYear])
  | cons c rest ih =>
    simp only [searchYear] at h
    cases h0 : tokenAt (c :: rest) with
    | some z =>
      rw [h0] at h
      refine ⟨0, ?_, ?_⟩
      · exact h0.trans h
      · intro j hj; omega
    | none =>
      rw [h0] at h
      obtain ⟨i, hi, hlt⟩ := ih h
      refine ⟨i + 1, hi, ?_⟩
      intro j hj
      cases j with
      | zero => exact h0
      | succ k => exact hlt k (Nat.lt_of_succ_lt_succ hj)

theorem mem_df_neo {raws : List NeoRaw} {x : Neo} (h : x ∈ df_neo raws) :
    ∃ w ∈ raws, ∃ y, extract_year w.name = some y ∧ x = deriveNeo w y := by
  rw [df_neo, List.mem_filterMap] at h
  obtain ⟨w, hw, hx⟩ := h
  rw [Option.map_eq_some'] at hx
  obtain ⟨y, hy, hxy⟩ := hx
  exact ⟨w, hw, y, hy, hxy.symm⟩

theorem cleanMeteorite_isSome_iff (w : MeteoriteRaw) :
    (cleanMeteorite w).isSome ↔
      (∃ y, w.year = some (some y) ∧ y ≤ 2020) ∧
      (∃ m, w.mass = some m ∧ 0 < m) ∧ w.reclat.isSome ∧ w.reclong.isSome := by
  cases hy : w.year with
  | none => simp [cleanMeteorite, hy]
  | some yy =>
    cases yy with
    | none => simp [cleanMeteorite, hy]
    | some y =>
      cases hm : w.mass with
      | none => simp [cleanMeteorite, hy, hm]
      | some m =>
        cases hla : w.reclat with
        | none => simp [cleanMeteorite, hy, hm, hla]
        | some la =>
          cases hlo : w.reclong with
          | none => simp [cleanMeteorite, hy, hm, hla, hlo]
          | some lo =>
            simp only [cleanMeteorite, hy, hm, hla, hlo]
            split_ifs with hc
            · simp [hc.1, hc.2]
            · simp only [Option.isSome_none, Option.isSome_some]
              constructor
              · intro h; cases h
              · rintro ⟨⟨y', hy', h1⟩, ⟨m', hm', h2⟩, _, _⟩
                cases hy'
                cases hm'
                exact absurd ⟨h1, h2⟩ hc

theorem cleanMeteorite_eq_some {w : MeteoriteRaw} {r : Meteorite}
    (h : cleanMeteorite w = some r) :
    r.dateTime = toDatetimeY r.year ∧ r.year ≤ 2020 ∧ 0 < r.mass := by
  cases hy : w.year with
  | none => simp [cleanMeteorite, hy] at h
  | some yy =>
    cases yy with
    | none => simp [cleanMeteorite, hy] at h
    | some y =>
      cases hm : w.mass with
      | none => simp [cleanMeteorite, hy, hm] at h
      | some m =>
        cases hla : w.reclat with
        | none => simp [cleanMeteorite, hy, hm, hla] at h
        | some la =>
          cases hlo : w.reclong with
          | none => simp [cleanMeteorite, hy, hm, hla, hlo] at h
          | some lo =>
            simp only [cleanMeteorite, hy, hm, hla, hlo] at h
            split_ifs at h with hc
            · cases h
              exact ⟨rfl, hc.1, hc.2⟩

theorem mem_df_meteorites {raws : List MeteoriteRaw} {r : Meteorite}
    (h : r ∈ df_meteorites raws) :
    r.dateTime = toDatetimeY r.year ∧ r.year ≤ 2020 ∧ 0 < r.mass := by
  rw [df_meteorites, List.mem_filterMap] at h
  obtain ⟨w, _, hw⟩ := h
  exact cleanMeteorite_eq_some hw

theorem mem_df_bolides {parse : String → Option PDTimestamp}
    {raws : List BolideRaw} {b : Bolide} (h : b ∈ df_bolides parse raws) :
    b.year = b.dateTime.map PDTimestamp.year := by
  rw [df_bolides, List.mem_map] at h
  obtain ⟨w, _, hw⟩ := h
  subst hw
  rfl

theorem filter_idem {α : Type} (p : α → Bool) (l : List α) :
    (l.filter p).filter p = l.filter p := by
  induction l with
  | nil => rfl
  | cons a t ih =>
    by_cases h : p a
    · simp [List.filter_cons, h, ih]
    · simp [List.filter_cons, h, ih]

theorem sorted_take_rel {α : Type} {R : α → α → Prop} {l : List α}
    (hs : List.Pairwise R l) {n : ℕ} {q : α} (hq : l[n]? = some q)
    {p : α} (hp : p ∈ l.take n) : R p q := by
  have hsplit : ∀ a ∈ l.take n, ∀ b ∈ l.drop n, R a b :=
    (List.pairwise_append.mp (by rw [List.take_append_drop]; exact hs)).2.2
  obtain ⟨hlt, hg⟩ := List.getElem?_eq_some_iff.mp hq
  have hqmem : q ∈ l.drop n := by
    rw [List.drop_eq_getElem_cons hlt, hg]
    exact List.mem_cons_self q _
  exact hsplit p hp q hqmem

theorem df_neo_length (raws : List NeoRaw) :
    (df_neo raws).length = (raws.filter fun v => (extract_year v.name).isSome).length := by
  induction raws with
  | nil => rfl
  | cons v t ih =>
    simp only [df_neo] at ih ⊢
    cases hv : extract_year v.name with
    | none => simp [List.filterMap_cons, List.filter_cons, hv, ih]
    | some y => simp [List.filterMap_cons, List.filter_cons, hv, ih]

/-- Claim C1: in each domain the filtered view contains exactly the rows of
the cleaned table satisfying the conjunction of all active predicates, the
year range is inclusive on both bounds (a row with year equal to either
slider endpoint is retained), and every retained row has its year in range
and its category field (fall type, hazardous flag, classification) in the
selected set.  For meteorites the year predicate runs through the derived
`Date/Time` column, so the exact characterisation holds for every reachable
slider value, whose lower bound is at least 1678 (the slider minimum is
computed from `Date/Time` years, line 100). -/
theorem C1_filtered_views_conjunction
    (mraws : List MeteoriteRaw) (mlo mhi : ℤ) (hlo : 1678 ≤ mlo)
    (fallSel classSel : List String) (r : Meteorite)
    (nraws : List NeoRaw) (nlo nhi : ℕ) (hazSel : List Bool) (x : Neo)
    (parse : String → Option PDTimestamp) (braws : List BolideRaw)
    (blo bhi : ℤ) (b : Bolide) :
    (r ∈ df_meteorites_filtered (df_meteorites mraws) mlo mhi fallSel classSel ↔
      r ∈ df_meteorites mraws ∧ (mlo ≤ r.year ∧ r.year ≤ mhi) ∧
        r.fall ∈ fallSel ∧ r.recclass ∈ classSel) ∧
    (x ∈ df_neo_filtered (df_neo nraws) nlo nhi hazSel ↔
      x ∈ df_neo nraws ∧ (nlo ≤ x.year ∧ x.year ≤ nhi) ∧ x.hazardous ∈ hazSel) ∧
    (b ∈ df_bolides_filtered (df_bolides_clean (df_bolides parse braws)) blo bhi ↔
      b ∈ df_bolides_clean (df_bolides parse braws) ∧
        ∃ y, b.year = some y ∧ blo ≤ y ∧ y ≤ bhi) := by
  refine ⟨?_, ?_, ?_⟩
  · simp only [df_meteorites_filtered, List.mem_filter]
    constructor
    · rintro ⟨hmem, hpred⟩
      obtain ⟨hdt, hy2020, -⟩ := mem_df_meteorites hmem
      rw [hdt] at hpred
      by_cases hb : 1678 ≤ r.year ∧ r.year ≤ 2262
      · rw [toDatetimeY, if_pos hb] at hpred
        simp only [Bool.and_eq_true, decide_eq_true_eq] at hpred
        exact ⟨hmem, ⟨hpred.1.1.1, hpred.1.1.2⟩, hpred.1.2, hpred.2⟩
      · rw [toDatetimeY, if_neg hb] at hpred
        simp at hpred
    · rintro ⟨hmem, ⟨h1, h2⟩, hf, hc⟩
      obtain ⟨hdt, hy2020, -⟩ := mem_df_meteorites hmem
      refine ⟨hmem, ?_⟩
      rw [hdt, toDatetimeY, if_pos ⟨le_trans hlo h1, by omega⟩]
      simp [h1, h2, hf, hc]
  · simp only [df_neo_filtered, List.mem_filter, Bool.and_eq_true, decide_eq_true_eq,
      and_assoc]
  · simp only [df_bolides_filtered, List.mem_filter]
    constructor
    · rintro ⟨hmem, hpred⟩
      cases hy : b.year with
      | none => rw [hy] at hpred; simp at hpred
      | some y =>
        rw [hy] at hpred
        simp only [Bool.and_eq_true, decide_eq_true_eq] at hpred
        exact ⟨hmem, y, rfl, hpred.1, hpred.2⟩
    · rintro ⟨hmem, y, hy, h1, h2⟩
      refine ⟨hmem, ?_⟩
      rw [hy]
      simp [h1, h2]

/-- Claim C4: every record of the derived NEO table, and of every filtered
view of it, has `mean_diameter` equal to the exact arithmetic mean
`(est_diameter_min + est_diameter_max) / 2` (numerics modelled as `ℚ`). -/
theorem C4_mean_diameter (raws : List NeoRaw) (lo hi : ℕ) (hazSel : List Bool) :
    (∀ x ∈ df_neo raws,
      x.mean_diameter = (x.est_diameter_min + x.est_diameter_max) / 2) ∧
    (∀ x ∈ df_neo_filtered (df_neo raws) lo hi hazSel,
      x.mean_diameter = (x.est_diameter_min + x.est_diameter_max) / 2) := by
  have base : ∀ x ∈ df_neo raws,
      x.mean_diameter = (x.est_diameter_min + x.est_diameter_max) / 2 := by
    intro x hx
    obtain ⟨w, -, y, -, hxy⟩ := mem_df_neo hx
    subst hxy
    rfl
  refine ⟨base, fun x hx => base x ?_⟩
  simp only [df_neo_filtered, List.mem_filter] at hx
  exact hx.1

/-- Claim C10: every record of the cleaned meteorite table has year at most
2020 (and positive mass); a raw row survives cleaning exactly when its year
cell is present and numeric with value at most 2020, its mass is present and
positive, and its latitude and longitude are present — so rows with parsed
year greater than 2020, missing fields, or non-positive mass are silently
dropped. -/
theorem C10_cleaning_invariant (raws : List MeteoriteRaw) (w : MeteoriteRaw) :
    (∀ r ∈ df_meteorites raws, r.year ≤ 2020 ∧ 0 < r.mass) ∧
    ((cleanMeteorite w).isSome ↔
      (∃ y, w.year = some (some y) ∧ y ≤ 2020) ∧
      (∃ m, w.mass = some m ∧ 0 < m) ∧ w.reclat.isSome ∧ w.reclong.isSome) :=
  ⟨fun _ hr => (mem_df_meteorites hr).2, cleanMeteorite_isSome_iff w⟩

/-- Claim C3: `extract_year` of the example name yields 2017; it returns
`none` exactly when no position of the name matches the parenthesized
`(19|20)dd` pattern, and when it returns a year it is the one at the
leftmost matching position; the derived NEO table keeps exactly the records
whose name has a match (one row per matching raw row), every kept record
carries the year extracted from its own name, and a record without a match
is excluded. -/
theorem C3_neo_year_extraction (raws : List NeoRaw) (w : NeoRaw) :
    extract_year "2017 AB12 (2017 AB12)" = some 2017 ∧
    (extract_year w.name = none ↔ ∀ i, tokenAt (w.name.data.drop i) = none) ∧
    (∀ y, extract_year w.name = some y →
      ∃ i, tokenAt (w.name.data.drop i) = some y ∧
        ∀ j, j < i → tokenAt (w.name.data.drop j) = none) ∧
    (df_neo raws).length = (raws.filter fun v => (extract_year v.name).isSome).length ∧
    (∀ x ∈ df_neo raws, ∃ y, extract_year x.name = some y ∧ x.year = y) ∧
    (extract_year w.name = none → df_neo [w] = []) := by
  refine ⟨by decide, searchYear_eq_none_iff _, fun y h => searchYear_eq_some h,
    df_neo_length raws, ?_, ?_⟩
  · intro x hx
    obtain ⟨v, -, y, hy, hxy⟩ := mem_df_neo hx
    subst hxy
    exact ⟨y, hy, rfl⟩
  · intro h
    simp [df_neo, h]

/-- Claim C5: for a filtered view with at least 11 distinct classification
values, the top-10 ranking has exactly 10 entries and every returned
entry’s count is at least the 11th-largest count. -/
theorem C5_top10_ranking (df : List Meteorite)
    (h : 10 < ((df.map Meteorite.recclass).dedup).length) :
    (class_pie df).length = 10 ∧
    ∀ p ∈ class_pie df, ∀ q,
      (value_counts (df.map Meteorite.recclass))[10]? = some q → q.2 ≤ p.2 := by
  have hlen : (value_counts (df.map Meteorite.recclass)).length
      = ((df.map Meteorite.recclass).dedup).length := by
    rw [value_counts, List.length_insertionSort, List.length_map]
  constructor
  · rw [class_pie, List.length_take, hlen]
    omega
  · intro p hp q hq
    have hsorted : List.Pairwise cntGE (value_counts (df.map Meteorite.recclass)) :=
      List.sorted_insertionSort cntGE _
    rw [class_pie] at hp
    exact sorted_take_rel hsorted hq hp

/-- Claim C6: filtering is idempotent in all three domains — applying the
same filter to an already-filtered view returns exactly the same view (same
rows, same order). -/
theorem C6_filter_idempotent (df : List Meteorite) (lo hi : ℤ)
    (fallSel classSel : List String) (ndf : List Neo) (nlo nhi : ℕ)
    (hazSel : List Bool) (bdf : List Bolide) (blo bhi : ℤ) :
    df_meteorites_filtered (df_meteorites_filtered df lo hi fallSel classSel)
        lo hi fallSel classSel
      = df_meteorites_filtered df lo hi fallSel classSel ∧
    df_neo_filtered (df_neo_filtered ndf nlo nhi hazSel) nlo nhi hazSel
      = df_neo_filtered ndf nlo nhi hazSel ∧
    df_bolides_filtered (df_bolides_filtered bdf blo bhi) blo bhi
      = df_bolides_filtered bdf blo bhi :=
  ⟨filter_idem _ _, filter_idem _ _, filter_idem _ _⟩

/-- Claim C8: timestamp parsing coerces every unparseable `Date/Time` value
to a missing marker instead of raising (the derived table has one row per
raw row, for any parser), and rows with a missing timestamp are excluded
from the inputs of the time-based aggregations: the yearly resample of the
filtered view (line 280) and the metrics resample input `df_multi`
(lines 344-347). -/
theorem C8_timestamp_coercion (parse : String → Option PDTimestamp)
    (raws : List BolideRaw) (df : List Bolide) (selI selR selV : Bool) (lo hi : ℤ) :
    (df_bolides parse raws).length = raws.length ∧
    (∀ b ∈ df_bolides_filtered (df_bolides_clean (df_bolides parse raws)) lo hi,
      b.dateTime.isSome) ∧
    (∀ b ∈ df_multi df selI selR selV lo hi, b.dateTime.isSome) := by
  refine ⟨by simp [df_bolides], ?_, ?_⟩
  · intro b hb
    simp only [df_bolides_filtered, List.mem_filter] at hb
    obtain ⟨hmem, hpred⟩ := hb
    have hclean : b ∈ df_bolides parse raws := by
      simp only [df_bolides_clean, List.mem_filter] at hmem
      exact hmem.1
    have hy := mem_df_bolides hclean
    cases hd : b.dateTime with
    | some d => rfl
    | none =>
      rw [hd] at hy
      rw [hy] at hpred
      simp at hpred
  · intro b hb
    simp only [df_multi, List.mem_filter] at hb
    obtain ⟨⟨-, hp1⟩, -⟩ := hb
    simp only [Bool.and_eq_true] at hp1
    exact hp1.1.1.1

/-- Claim C9: a filter pass leaves the underlying cleaned table unchanged
and produces a new view, for the meteorite pass (lines 113-117) and the
bolide pass (lines 274-291) whose later column assignments write only to
the filtered copy.  Pandas boolean-mask selection returns a new frame, so
the pass is modelled as a state transformation returning both frames. -/
theorem C9_filter_pass_preserves_clean (df : List Meteorite) (lo hi : ℤ)
    (fallSel classSel : List String) (clean : List Bolide) (blo bhi : ℤ) :
    (meteoritesFilterPass df lo hi fallSel classSel).df_meteorites = df ∧
    (bolidesFilterPass clean blo bhi).df_bolides_clean = clean :=
  ⟨rfl, rfl⟩

/-- Claim C7: the numeric range predicate (impact energy, line 328) is
inclusive on both bounds — a row is retained exactly when its energy is
present and within `[elo, ehi]` — and on the spec’s scenario values
`[50, 100, 5000, 200000]` with bounds `[100, 100000]` it retains exactly
the rows with values 100 and 5000. -/
theorem C7_numeric_range_inclusive (df : List Bolide) (elo ehi : ℚ) (b : Bolide) :
    (b ∈ df_bolides_filtered_map df elo ehi ↔
      b ∈ df ∧ ∃ e, b.impactEnergy = some e ∧ elo ≤ e ∧ e ≤ ehi) ∧
    df_bolides_filtered_map [b50, b100, b5000, b200000] 100 100000 = [b100, b5000] := by
  constructor
  · simp only [df_bolides_filtered_map, List.mem_filter]
    constructor
    · rintro ⟨hm, hp⟩
      cases he : b.impactEnergy with
      | none => rw [he] at hp; simp at hp
      | some e =>
        rw [he] at hp
        simp only [Bool.and_eq_true, decide_eq_true_eq] at hp
        exact ⟨hm, e, rfl, hp.1, hp.2⟩
    · rintro ⟨hm, e, he, h1, h2⟩
      refine ⟨hm, ?_⟩
      rw [he]
      simp [h1, h2]
  · decide

/-- Claim C2 (violated by the code): the `Top 10 Bolides` table (line 360)
is computed from the raw `df_bolides`, not from the tab’s filtered view:
for a single bolide report dated 1990 and the year filter [2010, 2020], the
filtered view is empty yet the rendered table still shows that 1990 row. -/
theorem C2_top10_bolides_ignores_filter :
    top_radiated (df_bolides cParse [cBolRaw]) = [cBol] ∧
    df_bolides_filtered (df_bolides_clean (df_bolides cParse [cBolRaw])) 2010 2020
      = [] := by
  constructor
  · rfl
  · rfl

theorem C1_witness :
    cMet ∈ df_meteorites_filtered (df_meteorites [cMetRaw]) 2000 2013
      ["Fell", "Found"] ["L5"] :=
  ((C1_filtered_views_conjunction [cMetRaw] 2000 2013 (by decide) ["Fell", "Found"]
      ["L5"] cMet [] 2010 2020 [true] cNeo cParse [] 2010 2020 cBol).1).mpr (by decide)

theorem C3_witness : extract_year "2017 AB12 (2017 AB12)" = some 2017 :=
  (C3_neo_year_extraction [] cNeoRaw).1

theorem df_neo_c_eval : df_neo [cNeoRaw] = [cNeo] := by
  have h : extract_year cNeoRaw.name = some 2002 := by decide
  simp only [df_neo, List.filterMap_cons, List.filterMap_nil, h, Option.map_some]
  norm_num [deriveNeo, cNeoRaw, cNeo, Neo.mk.injEq]

theorem C4_witness :
    cNeo ∈ df_neo [cNeoRaw] ∧
    cNeo.mean_diameter = (cNeo.est_diameter_min + cNeo.est_diameter_max) / 2 :=
  ⟨df_neo_c_eval ▸ List.mem_singleton.mpr rfl,
   (C4_mean_diameter [cNeoRaw] 2000 2020 [true]).1 cNeo
     (df_neo_c_eval ▸ List.mem_singleton.mpr rfl)⟩

theorem C5_witness :
    10 < ((cMet11.map Meteorite.recclass).dedup).length ∧
    (class_pie cMet11).length = 10 :=
  ⟨by decide, (C5_top10_ranking cMet11 (by decide)).1⟩

theorem C7_witness :
    df_bolides_filtered_map [b50, b100, b5000, b200000] 100 100000 = [b100, b5000] :=
  (C7_numeric_range_inclusive [] 0 0 b50).2

theorem C8_witness : (df_bolides cParse [cBolRaw]).length = [cBolRaw].length :=
  (C8_timestamp_coercion cParse [cBolRaw] [] true true true 2010 2020).1

theorem C10_witness : (cleanMeteorite cMetRaw).isSome :=
  (C10_cleaning_invariant [cMetRaw] cMetRaw).2.mpr
    ⟨⟨2005, rfl, by decide⟩, ⟨21, rfl, by decide⟩, rfl, rfl⟩

end Nasa
